import Mathlib

/-!
Shallow embedding of the traliq-chathub client (TypeScript) for verification.

The embedding covers the parts of the code the checked properties are about:

* browser local storage (the keys `auth_token` and `user_profile`),
  modelled as an association list of string keys to string values
  (`Store`, with `getItem` / `setItem` / `removeItem` mirroring the
  `localStorage` API);
* the `AuthAPI` static class of `src/lib/auth-api.ts`
  (`getToken`, `getUserProfile`, `isAuthenticated`, `login`, `logout`,
  `getCurrentUser`);
* the auth session controller of `src/contexts/auth-context.tsx`
  (the derived `isAuthenticated` flag, `login`, `logout`, `refreshUser`,
  `checkBusinessRegistrationAndRedirect`, `handleStorageChange`);
* `BusinessAPI.hasRegisteredBusiness` and the shared `handleResponse`
  error-translation pattern of `ChatAPI` / `BusinessAPI` /
  `DocumentAPI.getTaskStatus`;
* the upload page of `src/app/dashboard/integrations/page.tsx`
  (`validateFile`, `handleFiles`, `pollTaskStatus`) together with the
  static `config.upload` / `config.polling` settings of `src/lib/config.ts`.

Network responses are modelled as explicit inductive values handed to the
functions, so every fetch outcome (2xx, non-2xx, network error, malformed
body) is a constructor and the functions are pure and executable.
-/

namespace ChatHub

/-- Browser local storage, restricted to string keys and string values as in
the DOM API.  Modelled as an association list; `setItem` replaces any
previous binding of the key. -/
abbrev Store := List (String × String)

/-- `localStorage.getItem(k)`: the value bound to `k`, or `none`. -/
def getItem : Store → String → Option String
  | [], _ => none
  | (k', v) :: rest, k => if k' = k then some v else getItem rest k

/-- `localStorage.removeItem(k)`: drop every binding of `k`. -/
def removeItem : Store → String → Store
  | [], _ => []
  | (k', v) :: rest, k =>
      if k' = k then removeItem rest k else (k', v) :: removeItem rest k

/-- `localStorage.setItem(k, v)`: bind `k` to `v`, shadowing any old value. -/
def setItem (s : Store) (k v : String) : Store :=
  (k, v) :: removeItem s k

/-- The `UserProfile` interface of `src/lib/auth-api.ts` (scalar fields; the
free-form `preferences` record carries no data any checked property reads
and is omitted). -/
structure UserProfile where
  id : String
  email : String
  name : Option String := none
  avatar_url : Option String := none
  phone : Option String := none
  last_login_at : Option String := none
  login_count : Nat := 0
  created_at : String := ""
  is_verified : Bool := false
  deriving Repr, DecidableEq

/-- Split a character list at every occurrence of `c` (the semantics of the
JavaScript `String.prototype.split` with a one-character separator, on the
character level).  Always returns at least one group. -/
def splitOnChar (c : Char) : List Char → List (List Char)
  | [] => [[]]
  | x :: xs =>
      let groups := splitOnChar c xs
      if x = c then [] :: groups
      else
        match groups with
        | [] => [[x]]
        | g :: gs => (x :: g) :: gs

/-- Decimal digits of a successor-form number, least significant first;
the first argument is recursion fuel (any bound of the iteration count). -/
def natToRevDigits : Nat → Nat → List Char
  | 0, _ => []
  | _ + 1, 0 => []
  | fuel + 1, n + 1 =>
      Char.ofNat (48 + (n + 1) % 10) :: natToRevDigits fuel ((n + 1) / 10)

/-- Decimal rendering of a natural number (kernel-computable). -/
def natToString (n : Nat) : String :=
  if n = 0 then "0" else String.mk (natToRevDigits (n + 1) n).reverse

/-- Value of a decimal digit character. -/
def digitVal? (c : Char) : Option Nat :=
  if 48 ≤ c.toNat ∧ c.toNat ≤ 57 then some (c.toNat - 48) else none

/-- Parse a nonempty digit list as a natural number. -/
def digitsToNatAux : List Char → Nat → Option Nat
  | [], acc => some acc
  | c :: cs, acc =>
      match digitVal? c with
      | some d => digitsToNatAux cs (acc * 10 + d)
      | none => none

/-- Parse a character list as a decimal natural number. -/
def digitsToNat? : List Char → Option Nat
  | [] => none
  | l => digitsToNatAux l 0

/-- Encoding of an optional string field inside a serialized profile. -/
def encOptField : Option String → String
  | none => "-"
  | some s => "+" ++ s

/-- Decoding of an optional string field; inverse of `encOptField` on
well-formed data. -/
def decOptField : List Char → Option (Option String)
  | ['-'] => some none
  | '+' :: rest => some (some (String.mk rest))
  | _ => none

/-- Join strings with the bar separator. -/
def joinBar : List String → String
  | [] => ""
  | [s] => s
  | s :: rest => s ++ "|" ++ joinBar rest

/-- Serialization standing in for `JSON.stringify` on `UserProfile` values:
an executable injective rendering of the fields.  (The property checks never
depend on JSON syntax, only on serialize/parse round-tripping and on parse
failure being possible for arbitrary strings.) -/
def encodeProfile (u : UserProfile) : String :=
  joinBar
    [u.id, u.email, encOptField u.name, encOptField u.avatar_url,
     encOptField u.phone, encOptField u.last_login_at,
     natToString u.login_count, u.created_at,
     if u.is_verified then "1" else "0"]

/-- Parsing standing in for `JSON.parse` on stored `user_profile` values;
`none` models a `JSON.parse` exception or a value of the wrong shape. -/
def decodeProfile (s : String) : Option UserProfile :=
  match splitOnChar '|' s.data with
  | [id, email, nm, av, ph, ll, lc, ca, iv] =>
      match decOptField nm, decOptField av, decOptField ph,
            decOptField ll, digitsToNat? lc with
      | some nm', some av', some ph', some ll', some n =>
          if iv = ['1'] then
            some ⟨String.mk id, String.mk email, nm', av', ph', ll', n,
                  String.mk ca, true⟩
          else if iv = ['0'] then
            some ⟨String.mk id, String.mk email, nm', av', ph', ll', n,
                  String.mk ca, false⟩
          else none
      | _, _, _, _, _ => none
  | _ => none

/-- Outcome of an awaited network call: resolved value or a thrown error. -/
inductive NetResult (α : Type) where
  | ok (a : α)
  | error (msg : String)
  deriving Repr, DecidableEq

/-- JavaScript truthiness of a nullable string (the `!!x` pattern): `null`
and the empty string are falsy, every other string is truthy. -/
def truthyString : Option String → Bool
  | none => false
  | some s => if s = "" then false else true

namespace AuthAPI

/-- `AuthAPI.getToken`: read `auth_token` from local storage (the embedding
is the browser context, so the `typeof window` guard is in its true branch). -/
def getToken (store : Store) : Option String :=
  getItem store "auth_token"

/-- `AuthAPI.getUserProfile`: read and parse `user_profile`.  (The source
also evicts an unparseable entry from storage as a side effect; the value
returned to the caller is `null` in exactly the cases this function returns
`none`.) -/
def getUserProfile (store : Store) : Option UserProfile :=
  match getItem store "user_profile" with
  | none => none
  | some raw => decodeProfile raw

/-- `AuthAPI.isAuthenticated`: `hasToken && hasProfile`, where
`hasToken = !!this.getToken()` is JS truthiness (an empty-string token is
falsy) and `hasProfile = !!this.getUserProfile()` tests the object-or-null
result. -/
def isAuthenticatedStore (store : Store) : Bool :=
  truthyString (getToken store) && (getUserProfile store).isSome

/-- `AuthAPI.logout`: best-effort `POST /auth/logout` when a token is stored
(its outcome `serverResp`, including a thrown error, is swallowed by the
`try/catch`), then the `finally` block removes `auth_token` and
`user_profile` unconditionally. -/
def logout (store : Store) (_serverResp : NetResult Unit) : Store :=
  removeItem (removeItem store "auth_token") "user_profile"

/-- `AuthAPI.getCurrentUser`: `GET /auth/me`; on success the fresh profile
is written to `user_profile` and returned, on failure the error propagates
and storage is untouched. -/
def getCurrentUser (store : Store) (resp : NetResult UserProfile) :
    Store × NetResult UserProfile :=
  match resp with
  | .ok u => (setItem store "user_profile" (encodeProfile u), .ok u)
  | .error m => (store, .error m)

end AuthAPI

/-- The body of an HTTP error response as seen by the JSON-parsing error
branches: either it parses as a JSON object carrying an optional string
`detail` field, or `JSON.parse` throws (`notJson` keeps the raw text, which
`AuthAPI.login` reads via `response.text()`). -/
inductive Body where
  | jsonDetail (detail : Option String)
  | notJson (raw : String)
  deriving Repr, DecidableEq

/-- Outcome of the `POST /auth/login` fetch, as `AuthAPI.login` inspects it. -/
inductive LoginResp where
  /-- 2xx and the body parsed as a `LoginResponse` object
  (`access_token`, `user`).  An absent token field is modelled by the empty
  string, which is equally falsy under the `if (result.access_token)` guard. -/
  | accepted (access_token : String) (user : UserProfile)
  /-- 2xx but with a `text/html` content type: `handleResponse` throws an
  HTML-error-page diagnostic chosen by status. -/
  | acceptedHtml (status : Nat)
  /-- 2xx but the body fails to parse as JSON: `handleResponse` throws. -/
  | acceptedBadJson
  /-- non-2xx: the error branch reads the text and maps known detail codes. -/
  | rejected (status : Nat) (body : Body)
  deriving Repr, DecidableEq

/-- The HTML-error-page diagnostics of `AuthAPI.handleResponse`. -/
def htmlDiagnostic (status : Nat) : String :=
  if status = 404 then
    "API endpoint not found. Please check if the backend server is running and the URL is correct."
  else if 500 ≤ status then
    "Server error occurred. Please try again later."
  else
    "Unexpected server response. Please check your network connection and try again."

/-- The error-message computation of the non-2xx branch of `AuthAPI.login`:
`errorMessage` starts as "Login failed", a parsed `detail` of
`LOGIN_BAD_CREDENTIALS` / `LOGIN_USER_NOT_VERIFIED` is replaced by a fixed
friendly message, any other truthy detail is used as-is, and a body that is
not JSON is shown raw (falling back to "Login failed" when empty). -/
def loginErrorMessage (body : Body) : String :=
  match body with
  | .jsonDetail (some d) =>
      if d = "LOGIN_BAD_CREDENTIALS" then "Invalid email or password"
      else if d = "LOGIN_USER_NOT_VERIFIED" then "Please verify your email before logging in"
      else if d = "" then "Login failed"
      else d
  | .jsonDetail none => "Login failed"
  | .notJson raw => if raw = "" then "Login failed" else raw

/-- Result of `AuthAPI.login` as seen by its caller: the resolved
`LoginResponse` or the thrown error message. -/
inductive LoginResult where
  | ok (access_token : String) (user : UserProfile)
  | error (msg : String)
  deriving Repr, DecidableEq

/-- `AuthAPI.login`: on a non-2xx response throw the mapped error message;
on a 2xx response whose body `handleResponse` rejects, rethrow its
diagnostic; on a parsed `LoginResponse`, store `auth_token` and
`user_profile` exactly when `access_token` is truthy (non-empty), and
return the response either way. -/
def AuthAPI.login (store : Store) (resp : LoginResp) : Store × LoginResult :=
  match resp with
  | .accepted t u =>
      if t ≠ "" then
        (setItem (setItem store "auth_token" t) "user_profile" (encodeProfile u),
         .ok t u)
      else
        (store, .ok t u)
  | .acceptedHtml st => (store, .error (htmlDiagnostic st))
  | .acceptedBadJson => (store, .error "Invalid response format from server")
  | .rejected _ body => (store, .error (loginErrorMessage body))

/-- Generic `HTTP {status}: {statusText}` fallback text. -/
def httpStatusText (status : Nat) (statusText : String) : String :=
  "HTTP " ++ toString status ++ ": " ++ statusText

/-- `ChatAPI.handleResponse` on a non-ok response: a JSON parse failure is
replaced by `{ detail: "Unknown error" }`, then the thrown message is
`detail || "HTTP {status}: {statusText}"`. -/
def chatErrorMessage (status : Nat) (statusText : String) (body : Body) : String :=
  let detail : Option String :=
    match body with
    | .jsonDetail od => od
    | .notJson _ => some "Unknown error"
  match detail with
  | some d => if d = "" then httpStatusText status statusText else d
  | none => httpStatusText status statusText

/-- `BusinessAPI.handleResponse` on a non-ok response: identical policy to
`ChatAPI.handleResponse`. -/
def businessErrorMessage (status : Nat) (statusText : String) (body : Body) : String :=
  let detail : Option String :=
    match body with
    | .jsonDetail od => od
    | .notJson _ => some "Unknown error"
  match detail with
  | some d => if d = "" then httpStatusText status statusText else d
  | none => httpStatusText status statusText

/-- The non-ok branch of `DocumentAPI.getTaskStatus` (and of the other
`DocumentAPI` calls): a JSON parse failure is replaced by `{}`, then the
thrown message is `detail || "HTTP {status}"` (no status text). -/
def documentErrorMessage (status : Nat) (body : Body) : String :=
  let detail : Option String :=
    match body with
    | .jsonDetail od => od
    | .notJson _ => none
  match detail with
  | some d => if d = "" then "HTTP " ++ toString status else d
  | none => "HTTP " ++ toString status

/-- Outcome of the `GET /businesses/status` fetch as
`BusinessAPI.hasRegisteredBusiness` sees it. -/
inductive BizStatusResp where
  /-- 2xx with a parsed body carrying the `has_business` flag. -/
  | ok (has_business : Bool)
  /-- 2xx but the body fails to parse: `response.json()` rejects. -/
  | okBadBody (msg : String)
  /-- non-2xx: `handleResponse` throws the translated message. -/
  | httpError (status : Nat) (statusText : String) (body : Body)
  /-- `fetch` itself rejects (network error). -/
  | netError (msg : String)
  deriving Repr, DecidableEq

/-- The `try` block of `BusinessAPI.hasRegisteredBusiness`: fetch, run the
shared `handleResponse`, and read `has_business`; any rejection along the
way is an `error`. -/
def hasRegisteredBusinessTry : BizStatusResp → Except String Bool
  | .ok b => .ok b
  | .okBadBody msg => .error msg
  | .httpError st stText body => .error (businessErrorMessage st stText body)
  | .netError msg => .error msg

/-- `BusinessAPI.hasRegisteredBusiness`: the `try` block wrapped in a
`catch` that logs and returns `false`, so the function always resolves to a
boolean. -/
def hasRegisteredBusiness (resp : BizStatusResp) : Bool :=
  match hasRegisteredBusinessTry resp with
  | .ok b => b
  | .error _ => false

/-- Client-side navigation targets of the auth flows. -/
inductive Route where
  | onboarding
  | dashboard
  | authPage
  deriving Repr, DecidableEq

/-- `checkBusinessRegistrationAndRedirect` in `auth-context.tsx`: push
`/dashboard` when `hasRegisteredBusiness` resolves `true`, `/onboarding`
when it resolves `false`.  (Its own `catch`, which would push `/dashboard`,
is unreachable because `hasRegisteredBusiness` never rejects.) -/
def checkBusinessRegistrationAndRedirect (biz : BizStatusResp) : Route :=
  if hasRegisteredBusiness biz then Route.dashboard else Route.onboarding

/-- The session state held by the auth context provider: the shared local
storage plus the React `user` state of this tab. -/
structure AuthState where
  store : Store
  user : Option UserProfile
  deriving Repr, DecidableEq

/-- The derived flag of `auth-context.tsx`, recomputed on every render:
`isAuthenticated = !!user && !!AuthAPI.getToken()` — `!!user` tests the
object-or-null React state, `!!AuthAPI.getToken()` is JS truthiness on the
stored string (an empty-string token is falsy). -/
def ctxIsAuthenticated (s : AuthState) : Bool :=
  s.user.isSome && truthyString (AuthAPI.getToken s.store)

/-- Result of one run of the `login` operation of the auth context. -/
structure LoginStep where
  state : AuthState
  /-- `router.push` target, when one was issued. -/
  route : Option Route
  /-- description of the error toast, when login failed. -/
  errorShown : Option String
  deriving Repr, DecidableEq

/-- The `login` operation of the auth context: call `AuthAPI.login`; on
success set the user from the response and redirect via
`checkBusinessRegistrationAndRedirect`; on a thrown error show it and leave
the session untouched. -/
def ctxLogin (s : AuthState) (resp : LoginResp) (biz : BizStatusResp) :
    LoginStep :=
  match AuthAPI.login s.store resp with
  | (store', LoginResult.ok _ u) =>
      { state := { store := store', user := some u }
        route := some (checkBusinessRegistrationAndRedirect biz)
        errorShown := none }
  | (store', LoginResult.error msg) =>
      { state := { store := store', user := s.user }
        route := none
        errorShown := some msg }

/-- The `logout` operation of the auth context: `AuthAPI.logout` (which
never rejects), clear the user, and push `/auth`. -/
def ctxLogout (s : AuthState) (serverResp : NetResult Unit) :
    AuthState × Route :=
  ({ store := AuthAPI.logout s.store serverResp, user := none },
   Route.authPage)

/-- The `refreshUser` operation of the auth context: re-fetch the profile
with `AuthAPI.getCurrentUser`; on success store it, on failure fall back to
the `logout` operation. -/
def ctxRefreshUser (s : AuthState) (resp : NetResult UserProfile)
    (logoutServer : NetResult Unit) : AuthState × Option Route :=
  match AuthAPI.getCurrentUser s.store resp with
  | (store', NetResult.ok u) =>
      ({ store := store', user := some u }, none)
  | (_, NetResult.error _) =>
      let r := ctxLogout s logoutServer
      (r.1, some r.2)

/-- A DOM storage event as delivered to other tabs: the changed key and its
new value (`none` for a removal). -/
structure StorageEvent where
  key : String
  newValue : Option String
  deriving Repr, DecidableEq

/-- `handleStorageChange` of `auth-context.tsx`, as the update it applies
to the React `user` state of the receiving tab (whose local storage
`store` already reflects the write of the other tab):  removal of
`auth_token` clears the user; a truthy added `auth_token` restores the
cached profile when the tab had no user and a cached profile parses;
removal of `user_profile` clears the user; a truthy new `user_profile` that
parses replaces the user. -/
def handleStorageChange (store : Store) (user : Option UserProfile)
    (e : StorageEvent) : Option UserProfile :=
  if e.key = "auth_token" then
    match e.newValue with
    | none => none
    | some v =>
        if v ≠ "" ∧ user = none then
          match AuthAPI.getUserProfile store with
          | some cached => some cached
          | none => user
        else user
  else if e.key = "user_profile" then
    match e.newValue with
    | none => none
    | some v =>
        if v ≠ "" then
          match decodeProfile v with
          | some p => some p
          | none => user
        else user
  else user

namespace Config

/-- `config.upload.maxFileSize` (10 MiB). -/
def maxFileSize : Nat := 10 * 1024 * 1024

/-- `config.upload.acceptedFileTypes`. -/
def acceptedFileTypes : List String :=
  [".pdf", ".doc", ".docx", ".txt", ".rtf", ".csv", ".xlsx", ".xls"]

/-- `config.polling.interval` in milliseconds. -/
def pollingInterval : Rat := 2000

/-- `config.polling.backoffMultiplier` (1.5; exact as a rational). -/
def backoffMultiplier : Rat := 3 / 2

/-- `config.polling.maxRetries` (declared in the config; `pollTaskStatus`
on the integrations page never consults it). -/
def pollingMaxRetries : Nat := 150

end Config

/-- The two attributes of a browser `File` that `validateFile` reads. -/
structure FileMeta where
  name : String
  size : Nat
  deriving Repr, DecidableEq

/-- Lower-casing of an ASCII letter (the accepted extensions are ASCII). -/
def toLowerChar (c : Char) : Char :=
  if 65 ≤ c.toNat ∧ c.toNat ≤ 90 then Char.ofNat (c.toNat + 32) else c

/-- The extension computation of `validateFile`:
`"." + file.name.split(".").pop()?.toLowerCase()`. -/
def fileExtension (name : String) : String :=
  "." ++ String.mk (((splitOnChar '.' name.data).getLastD []).map toLowerChar)

/-- `validateFile` on the integrations page: reject when the size exceeds
`config.upload.maxFileSize`, then reject unlisted extensions, else accept. -/
def validateFile (f : FileMeta) : Bool :=
  if Config.maxFileSize < f.size then false
  else if !(Config.acceptedFileTypes.contains (fileExtension f.name)) then false
  else true

/-- `handleFiles` on the integrations page, as the set of files it hands to
`uploadFile` (each of which issues exactly one upload request): nothing
while an upload batch is in flight, otherwise exactly the files
`validateFile` accepts, in order. -/
def handleFiles (isUploading : Bool) (files : List FileMeta) : List FileMeta :=
  if isUploading then [] else files.filter validateFile

/-- Outcome of one `documentAPI.getTaskStatus` call inside the polling loop:
a resolved status string, or a rejection (network error / timeout). -/
inductive PollResult where
  | status (s : String)
  | failure
  deriving Repr, DecidableEq

/-- Whether a poll outcome makes `pollTaskStatus` stop. -/
def PollResult.isTerminal : PollResult → Bool
  | PollResult.status s => s = "completed" || s = "failed"
  | PollResult.failure => false

/-- Observable effects of a run of `pollTaskStatus` on one task. -/
structure PollEffects where
  /-- number of `getTaskStatus` calls made. -/
  polls : Nat
  /-- terminal UI updates marking the file `success`. -/
  successUpdates : Nat
  /-- terminal UI updates marking the file `error`. -/
  errorUpdates : Nat
  /-- document-list refreshes (`loadDocuments`) triggered by the poll. -/
  refreshes : Nat
  /-- the `setTimeout` delays scheduled between consecutive polls, in ms. -/
  delays : List Rat
  deriving Repr, DecidableEq

/-- `pollTaskStatus` on the integrations page, run against the trace of
outcomes the backend produces for the successive polls: on `completed`,
mark the file `success` and refresh the document list (when a business is
loaded) and stop; on `failed`, mark the file `error` and stop; on any other
status reschedule after `config.polling.interval`; on a rejected poll
reschedule after `config.polling.interval * config.polling.backoffMultiplier`.
An exhausted trace models a task still pending with no further
observations. -/
def pollTaskStatus (hasBusiness : Bool) : List PollResult → PollEffects
  | [] => ⟨0, 0, 0, 0, []⟩
  | PollResult.status s :: rest =>
      if s = "completed" then
        ⟨1, 1, 0, if hasBusiness then 1 else 0, []⟩
      else if s = "failed" then
        ⟨1, 0, 1, 0, []⟩
      else
        let e := pollTaskStatus hasBusiness rest
        ⟨e.polls + 1, e.successUpdates, e.errorUpdates, e.refreshes,
         Config.pollingInterval :: e.delays⟩
  | PollResult.failure :: rest =>
      let e := pollTaskStatus hasBusiness rest
      ⟨e.polls + 1, e.successUpdates, e.errorUpdates, e.refreshes,
       Config.pollingInterval * Config.backoffMultiplier :: e.delays⟩

/-- A concrete profile used by the concrete checks below. -/
def sampleUser : UserProfile :=
  { id := "u1", email := "user@example.com", login_count := 3,
    created_at := "2024-01-01", is_verified := true }

/-- A store holding only the cached profile of `sampleUser` (no token). -/
def sampleCachedStore : Store :=
  setItem [] "user_profile" (encodeProfile sampleUser)

/-- A store holding a token and the cached profile of `sampleUser`. -/
def sampleAuthedStore : Store :=
  setItem sampleCachedStore "auth_token" "tok"

/-- A store holding the cached profile of `sampleUser` and an empty-string
token — `auth_token` is present (non-null) but falsy. -/
def emptyTokenStore : Store :=
  setItem sampleCachedStore "auth_token" ""

/-!  Theorems.  The first block proves the generic local-storage lemmas the
claim theorems rely on. -/

theorem getItem_removeItem_self (s : Store) (k : String) :
    getItem (removeItem s k) k = none := by
  induction s with
  | nil => rfl
  | cons p rest ih =>
      obtain ⟨k', v⟩ := p
      by_cases h : k' = k
      · simp [removeItem, h, ih]
      · simp [removeItem, getItem, h, ih]

theorem getItem_removeItem_ne (s : Store) (k k' : String) (h : k' ≠ k) :
    getItem (removeItem s k) k' = getItem s k' := by
  induction s with
  | nil => rfl
  | cons p rest ih =>
      obtain ⟨a, v⟩ := p
      by_cases ha : a = k
      · subst ha
        have hak' : ¬(a = k') := fun hx => h hx.symm
        simp [removeItem, getItem, hak', ih]
      · simp [removeItem, ha, getItem, ih]

theorem getItem_setItem_self (s : Store) (k v : String) :
    getItem (setItem s k v) k = some v := by
  simp [setItem, getItem]

theorem getItem_setItem_ne (s : Store) (k v k' : String) (h : k' ≠ k) :
    getItem (setItem s k v) k' = getItem s k' := by
  have hk : ¬(k = k') := fun hx => h hx.symm
  show (if k = k' then some v else getItem (removeItem s k) k') = getItem s k'
  rw [if_neg hk]
  exact getItem_removeItem_ne s k k' h

/-- Truthiness of a nullable string, characterised: truthy exactly when a
non-empty string is present. -/
theorem truthyString_eq_true_iff (o : Option String) :
    truthyString o = true ↔ ∃ t, o = some t ∧ t ≠ "" := by
  cases o with
  | none => simp [truthyString]
  | some s =>
      by_cases h : s = ""
      · subst h
        simp [truthyString]
      · simp [truthyString, h]

/-- Claim C1 counterexample: at a session state whose storage binds
`auth_token` to the empty string while the user (and the cached profile)
is present, both token and profile are non-null, yet the derived flag is
false for the auth-context flag and for `AuthAPI.isAuthenticated` alike —
the source tests `!!token`, under which the empty string counts as absent,
so the claimed biconditional fails at this state. -/
theorem isAuthenticated_empty_token_breaks_iff :
    AuthAPI.getToken emptyTokenStore ≠ none ∧
    (some sampleUser : Option UserProfile) ≠ none ∧
    ctxIsAuthenticated ⟨emptyTokenStore, some sampleUser⟩ = false ∧
    AuthAPI.getUserProfile emptyTokenStore ≠ none ∧
    AuthAPI.isAuthenticatedStore emptyTokenStore = false := by
  exact ⟨by decide, by decide, by decide, by decide, by decide⟩

/-- Claim C1 (amended): in every session state the derived
`isAuthenticated` flag is true exactly when a truthy (non-empty) access
token is stored and the user profile is present — for the auth-context
flag (token in storage, user in React state) and for
`AuthAPI.isAuthenticated` (token and parseable cached profile in storage);
consequently every session-mutating operation — login, logout, refreshUser
and the cross-tab storage sync — yields a state in which the equivalence
still holds. -/
theorem isAuthenticated_iff_truthy_token_and_profile :
    (∀ s : AuthState,
        ctxIsAuthenticated s = true ↔
          ((∃ t, AuthAPI.getToken s.store = some t ∧ t ≠ "") ∧
           s.user ≠ none)) ∧
    (∀ store : Store,
        AuthAPI.isAuthenticatedStore store = true ↔
          ((∃ t, AuthAPI.getToken store = some t ∧ t ≠ "") ∧
           AuthAPI.getUserProfile store ≠ none)) ∧
    (∀ (s : AuthState) (resp : LoginResp) (biz : BizStatusResp),
        ctxIsAuthenticated (ctxLogin s resp biz).state = true ↔
          ((∃ t, AuthAPI.getToken (ctxLogin s resp biz).state.store =
              some t ∧ t ≠ "") ∧
           (ctxLogin s resp biz).state.user ≠ none)) ∧
    (∀ (s : AuthState) (r : NetResult Unit),
        ctxIsAuthenticated (ctxLogout s r).1 = true ↔
          ((∃ t, AuthAPI.getToken (ctxLogout s r).1.store = some t ∧ t ≠ "") ∧
           (ctxLogout s r).1.user ≠ none)) ∧
    (∀ (s : AuthState) (resp : NetResult UserProfile) (r : NetResult Unit),
        ctxIsAuthenticated (ctxRefreshUser s resp r).1 = true ↔
          ((∃ t, AuthAPI.getToken (ctxRefreshUser s resp r).1.store =
              some t ∧ t ≠ "") ∧
           (ctxRefreshUser s resp r).1.user ≠ none)) ∧
    (∀ (s : AuthState) (e : StorageEvent),
        ctxIsAuthenticated ⟨s.store, handleStorageChange s.store s.user e⟩ = true ↔
          ((∃ t, AuthAPI.getToken s.store = some t ∧ t ≠ "") ∧
           handleStorageChange s.store s.user e ≠ none)) := by
  have base : ∀ s : AuthState,
      ctxIsAuthenticated s = true ↔
        ((∃ t, AuthAPI.getToken s.store = some t ∧ t ≠ "") ∧
         s.user ≠ none) := by
    intro s
    rw [ctxIsAuthenticated, Bool.and_eq_true, truthyString_eq_true_iff,
        Option.isSome_iff_ne_none]
    exact ⟨fun h => ⟨h.2, h.1⟩, fun h => ⟨h.2, h.1⟩⟩
  have baseStore : ∀ store : Store,
      AuthAPI.isAuthenticatedStore store = true ↔
        ((∃ t, AuthAPI.getToken store = some t ∧ t ≠ "") ∧
         AuthAPI.getUserProfile store ≠ none) := by
    intro store
    rw [AuthAPI.isAuthenticatedStore, Bool.and_eq_true,
        truthyString_eq_true_iff, Option.isSome_iff_ne_none]
  refine ⟨base, baseStore, ?_, ?_, ?_, ?_⟩
  · intro s resp biz
    exact base (ctxLogin s resp biz).state
  · intro s r
    exact base (ctxLogout s r).1
  · intro s resp r
    exact base (ctxRefreshUser s resp r).1
  · intro s e
    exact base ⟨s.store, handleStorageChange s.store s.user e⟩

/-- Concrete instantiation of the claim C1 theorem: a state holding the
sample non-empty token and profile is authenticated, and the state left by
a logout is not. -/
theorem isAuthenticated_iff_truthy_token_and_profile_check :
    ctxIsAuthenticated ⟨sampleAuthedStore, some sampleUser⟩ = true ∧
    ctxIsAuthenticated (ctxLogout ⟨sampleAuthedStore, some sampleUser⟩
      (NetResult.ok ())).1 = false := by
  constructor
  · exact (isAuthenticated_iff_truthy_token_and_profile.1
      ⟨sampleAuthedStore, some sampleUser⟩).mpr
      ⟨⟨"tok", by decide, by decide⟩, by decide⟩
  · by_contra h
    have hb : ctxIsAuthenticated (ctxLogout ⟨sampleAuthedStore, some sampleUser⟩
        (NetResult.ok ())).1 = true := by
      revert h
      decide
    have := (isAuthenticated_iff_truthy_token_and_profile.2.2.2.1
        ⟨sampleAuthedStore, some sampleUser⟩ (NetResult.ok ())).mp hb
    exact this.2 (by decide)

/-- Claim C2: after `AuthAPI.logout`, local storage contains neither
`auth_token` nor `user_profile`, whatever the outcome of the best-effort
server-side invalidation (success, thrown error, or skipped for lack of a
token), and the context-level logout additionally clears the in-memory
user and redirects to the entry page. -/
theorem logout_clears_local_session :
    ∀ (store : Store) (serverResp : NetResult Unit),
      getItem (AuthAPI.logout store serverResp) "auth_token" = none ∧
      getItem (AuthAPI.logout store serverResp) "user_profile" = none ∧
      (∀ u : Option UserProfile,
          (ctxLogout ⟨store, u⟩ serverResp).1.user = none ∧
          (ctxLogout ⟨store, u⟩ serverResp).2 = Route.authPage) := by
  intro store serverResp
  refine ⟨?_, ?_, fun u => ⟨rfl, rfl⟩⟩
  · show getItem (removeItem (removeItem store "auth_token") "user_profile")
      "auth_token" = none
    rw [getItem_removeItem_ne _ _ _ (by decide)]
    exact getItem_removeItem_self _ _
  · exact getItem_removeItem_self _ _

/-- Claim C3 counterexample: the message shown for a rejected login is not
always the server text verbatim — a backend rejection whose detail is
LOGIN_BAD_CREDENTIALS is displayed as the fixed friendly message
"Invalid email or password", which differs from the server detail. -/
theorem login_rejected_message_not_verbatim :
    (ctxLogin ⟨[], none⟩
        (LoginResp.rejected 400 (Body.jsonDetail (some "LOGIN_BAD_CREDENTIALS")))
        (BizStatusResp.ok false)).errorShown = some "Invalid email or password" ∧
    "Invalid email or password" ≠ "LOGIN_BAD_CREDENTIALS" := by
  exact ⟨rfl, by decide⟩

/-- Claim C3 (amended): a rejected login leaves the session state (storage
and user) unchanged — hence still unauthenticated — issues no navigation,
and shows `loginErrorMessage`, which is the server text verbatim (the
`detail` of a JSON body, or the raw body text otherwise) except that the
codes LOGIN_BAD_CREDENTIALS and LOGIN_USER_NOT_VERIFIED are replaced by
fixed friendly messages and an absent or empty detail or empty body falls
back to "Login failed". -/
theorem login_rejected_leaves_session_and_maps_message :
    (∀ (s : AuthState) (st : Nat) (body : Body) (biz : BizStatusResp),
        (ctxLogin s (LoginResp.rejected st body) biz).state = s ∧
        (ctxLogin s (LoginResp.rejected st body) biz).route = none ∧
        (ctxLogin s (LoginResp.rejected st body) biz).errorShown =
          some (loginErrorMessage body)) ∧
    (∀ d : String,
        d ≠ "LOGIN_BAD_CREDENTIALS" → d ≠ "LOGIN_USER_NOT_VERIFIED" → d ≠ "" →
          loginErrorMessage (Body.jsonDetail (some d)) = d) ∧
    (∀ raw : String, raw ≠ "" →
        loginErrorMessage (Body.notJson raw) = raw) ∧
    (loginErrorMessage (Body.jsonDetail (some "LOGIN_BAD_CREDENTIALS")) =
        "Invalid email or password" ∧
     loginErrorMessage (Body.jsonDetail (some "LOGIN_USER_NOT_VERIFIED")) =
        "Please verify your email before logging in" ∧
     loginErrorMessage (Body.jsonDetail none) = "Login failed" ∧
     loginErrorMessage (Body.notJson "") = "Login failed") := by
  refine ⟨fun s st body biz => ⟨rfl, rfl, rfl⟩, ?_, ?_, rfl, rfl, rfl, rfl⟩
  · intro d h1 h2 h3
    simp [loginErrorMessage, h1, h2, h3]
  · intro raw h
    simp [loginErrorMessage, h]

/-- Concrete instantiation of the claim C3 theorem: a rejection whose
detail is not one of the mapped codes is shown verbatim and the empty
session stays empty. -/
theorem login_rejected_leaves_session_and_maps_message_check :
    (ctxLogin ⟨[], none⟩
        (LoginResp.rejected 401 (Body.jsonDetail (some "Account locked")))
        (BizStatusResp.ok false)).errorShown = some "Account locked" ∧
    (ctxLogin ⟨[], none⟩
        (LoginResp.rejected 401 (Body.jsonDetail (some "Account locked")))
        (BizStatusResp.ok false)).state = ⟨[], none⟩ := by
  have h := login_rejected_leaves_session_and_maps_message
  have h1 := h.1 ⟨[], none⟩ 401 (Body.jsonDetail (some "Account locked"))
    (BizStatusResp.ok false)
  have h2 := h.2.1 "Account locked" (by decide) (by decide) (by decide)
  exact ⟨by rw [h1.2.2, h2], h1.1⟩

/-- Claim C4 counterexample: an accepted login whose parsed body carries an
empty (falsy) `access_token` stores neither the token nor the profile —
the claim, read over every accepted login, fails at this input. -/
theorem login_accepted_empty_token_stores_nothing :
    (ctxLogin ⟨[], none⟩ (LoginResp.accepted "" sampleUser)
        (BizStatusResp.ok true)).state.store = [] ∧
    getItem (ctxLogin ⟨[], none⟩ (LoginResp.accepted "" sampleUser)
        (BizStatusResp.ok true)).state.store "auth_token" ≠ some "" ∧
    getItem (ctxLogin ⟨[], none⟩ (LoginResp.accepted "" sampleUser)
        (BizStatusResp.ok true)).state.store "user_profile" = none := by
  exact ⟨rfl, by decide, rfl⟩

/-- Claim C4 (amended): for every accepted login whose response carries a
non-empty access token, the token is stored under `auth_token` and the
serialized profile under `user_profile`, the user state is set from the
response; and for every accepted login (empty token included) the client
navigates to onboarding when the business-status query reports no business
and to the dashboard when it reports one. -/
theorem login_accepted_stores_and_redirects :
    ∀ (s : AuthState) (t : String) (u : UserProfile) (biz : BizStatusResp),
      (t ≠ "" →
        getItem (ctxLogin s (LoginResp.accepted t u) biz).state.store
          "auth_token" = some t ∧
        getItem (ctxLogin s (LoginResp.accepted t u) biz).state.store
          "user_profile" = some (encodeProfile u)) ∧
      ((ctxLogin s (LoginResp.accepted t u) biz).state.user = some u ∧
       (ctxLogin s (LoginResp.accepted t u) biz).route =
         some (checkBusinessRegistrationAndRedirect biz) ∧
       (biz = BizStatusResp.ok false →
         (ctxLogin s (LoginResp.accepted t u) biz).route =
           some Route.onboarding) ∧
       (biz = BizStatusResp.ok true →
         (ctxLogin s (LoginResp.accepted t u) biz).route =
           some Route.dashboard)) := by
  intro s t u biz
  constructor
  · intro ht
    have hlogin : AuthAPI.login s.store (LoginResp.accepted t u) =
        (setItem (setItem s.store "auth_token" t) "user_profile"
          (encodeProfile u), LoginResult.ok t u) := by
      simp [AuthAPI.login, ht]
    constructor
    · show getItem (ctxLogin s (LoginResp.accepted t u) biz).state.store
        "auth_token" = some t
      rw [show (ctxLogin s (LoginResp.accepted t u) biz).state.store =
          (AuthAPI.login s.store (LoginResp.accepted t u)).1 from by
        rw [ctxLogin, hlogin]]
      rw [hlogin]
      rw [getItem_setItem_ne _ _ _ _ (by decide)]
      exact getItem_setItem_self _ _ _
    · rw [show (ctxLogin s (LoginResp.accepted t u) biz).state.store =
          (AuthAPI.login s.store (LoginResp.accepted t u)).1 from by
        rw [ctxLogin, hlogin]]
      rw [hlogin]
      exact getItem_setItem_self _ _ _
  · have hstep : ∀ t', (ctxLogin s (LoginResp.accepted t' u) biz).state.user =
        some u ∧ (ctxLogin s (LoginResp.accepted t' u) biz).route =
          some (checkBusinessRegistrationAndRedirect biz) := by
      intro t'
      by_cases ht : t' = ""
      · subst ht
        exact ⟨rfl, rfl⟩
      · simp [ctxLogin, AuthAPI.login, ht]
    refine ⟨(hstep t).1, (hstep t).2, ?_, ?_⟩
    · intro hbiz
      subst hbiz
      rw [(hstep t).2]
      rfl
    · intro hbiz
      subst hbiz
      rw [(hstep t).2]
      rfl

/-- Concrete instantiation of the claim C4 theorem: a successful login with
token "tok" stores it, stores the profile, and redirects to onboarding
when the stub reports no business. -/
theorem login_accepted_stores_and_redirects_check :
    getItem (ctxLogin ⟨[], none⟩ (LoginResp.accepted "tok" sampleUser)
        (BizStatusResp.ok false)).state.store "auth_token" = some "tok" ∧
    getItem (ctxLogin ⟨[], none⟩ (LoginResp.accepted "tok" sampleUser)
        (BizStatusResp.ok false)).state.store "user_profile" =
      some (encodeProfile sampleUser) ∧
    (ctxLogin ⟨[], none⟩ (LoginResp.accepted "tok" sampleUser)
        (BizStatusResp.ok false)).route = some Route.onboarding := by
  have h := login_accepted_stores_and_redirects ⟨[], none⟩ "tok" sampleUser
    (BizStatusResp.ok false)
  exact ⟨(h.1 (by decide)).1, (h.1 (by decide)).2, h.2.2.2.1 rfl⟩

/-- Claim C5: every file whose size exceeds `config.upload.maxFileSize`
(10 MiB) fails `validateFile` and is therefore excluded from the set of
files `handleFiles` hands to `uploadFile` — so no upload request is issued
for it. -/
theorem oversized_file_excluded :
    ∀ (isUploading : Bool) (files : List FileMeta) (f : FileMeta),
      Config.maxFileSize < f.size →
        validateFile f = false ∧ f ∉ handleFiles isUploading files := by
  intro b files f h
  have hv : validateFile f = false := by
    rw [validateFile, if_pos h]
  refine ⟨hv, ?_⟩
  cases b with
  | true => simp [handleFiles]
  | false =>
      intro hmem
      have hf := (List.mem_filter.mp (by simpa [handleFiles] using hmem)).2
      rw [hv] at hf
      cases hf

/-- Concrete instantiation of the claim C5 theorem: a file one byte over
the limit is rejected and absent from the upload set. -/
theorem oversized_file_excluded_check :
    validateFile (FileMeta.mk "big.pdf" 10485761) = false ∧
    FileMeta.mk "big.pdf" 10485761 ∉
      handleFiles false [FileMeta.mk "big.pdf" 10485761, FileMeta.mk "ok.txt" 5] :=
  oversized_file_excluded false
    [FileMeta.mk "big.pdf" 10485761, FileMeta.mk "ok.txt" 5]
    (FileMeta.mk "big.pdf" 10485761) (by decide)

/-- Claim C6: `pollTaskStatus` reschedules itself for every non-terminal
poll outcome (unknown statuses and rejected polls alike) and stops at the
first terminal status, producing exactly one terminal UI update for the
file and — on completion with a business loaded — exactly one
document-list refresh; the scheduled delay is the configured interval
after a non-terminal status and the backed-off interval after a rejected
poll. -/
theorem polling_stops_at_first_terminal :
    ∀ (hasBusiness : Bool) (pre : List PollResult) (s : String)
      (rest : List PollResult),
      (∀ r ∈ pre, r.isTerminal = false) →
      (s = "completed" ∨ s = "failed") →
        pollTaskStatus hasBusiness (pre ++ PollResult.status s :: rest) =
          { polls := pre.length + 1
            successUpdates := if s = "completed" then 1 else 0
            errorUpdates := if s = "completed" then 0 else 1
            refreshes :=
              if s = "completed" ∧ hasBusiness = true then 1 else 0
            delays := pre.map (fun r =>
              match r with
              | PollResult.failure =>
                  Config.pollingInterval * Config.backoffMultiplier
              | _ => Config.pollingInterval) } := by
  intro hasBusiness pre s rest
  induction pre with
  | nil =>
      intro _ hs
      rcases hs with h | h
      · subst h
        simp [pollTaskStatus]
      · subst h
        simp [pollTaskStatus]
  | cons r pre' ih =>
      intro hpre hs
      have hr : r.isTerminal = false := hpre r (List.mem_cons_self r pre')
      have hpre' : ∀ x ∈ pre', x.isTerminal = false :=
        fun x hx => hpre x (List.mem_cons_of_mem r hx)
      have ihh := ih hpre' hs
      cases r with
      | status s' =>
          rw [PollResult.isTerminal] at hr
          have hs1 : ¬(s' = "completed") := by
            intro hx
            rw [hx] at hr
            exact absurd hr (by decide)
          have hs2 : ¬(s' = "failed") := by
            intro hx
            rw [hx] at hr
            exact absurd hr (by decide)
          simp [pollTaskStatus, hs1, hs2, ihh, List.length_cons]
      | failure =>
          simp [pollTaskStatus, ihh, List.length_cons]

/-- Concrete instantiation of the claim C6 theorem: a task reported
"processing" three times and then "completed" yields four polls, one
terminal update, one refresh, and three interval-length delays. -/
theorem polling_stops_at_first_terminal_check :
    pollTaskStatus true
        [PollResult.status "processing", PollResult.status "processing",
         PollResult.status "processing", PollResult.status "completed"] =
      { polls := 4, successUpdates := 1, errorUpdates := 0, refreshes := 1,
        delays := [Config.pollingInterval, Config.pollingInterval,
                   Config.pollingInterval] } := by
  have h := polling_stops_at_first_terminal true
    [PollResult.status "processing", PollResult.status "processing",
     PollResult.status "processing"] "completed" [] (by decide) (Or.inl rfl)
  simpa using h

/-- Claim C7: a rejected task-status poll (network error or timeout) does
not abort the loop — the run continues exactly as the run on the remaining
trace — and the retry is scheduled after
`config.polling.interval * config.polling.backoffMultiplier`
milliseconds, numerically 3000. -/
theorem poll_transient_failure_retries_with_backoff :
    ∀ (hasBusiness : Bool) (rest : List PollResult),
      pollTaskStatus hasBusiness (PollResult.failure :: rest) =
        { polls := (pollTaskStatus hasBusiness rest).polls + 1
          successUpdates := (pollTaskStatus hasBusiness rest).successUpdates
          errorUpdates := (pollTaskStatus hasBusiness rest).errorUpdates
          refreshes := (pollTaskStatus hasBusiness rest).refreshes
          delays := Config.pollingInterval * Config.backoffMultiplier ::
            (pollTaskStatus hasBusiness rest).delays } ∧
      Config.pollingInterval * Config.backoffMultiplier = 3000 := by
  intro hasBusiness rest
  refine ⟨rfl, ?_⟩
  norm_num [Config.pollingInterval, Config.backoffMultiplier]

/-- Claim C8 counterexample: a storage event adding the empty string as
`auth_token` is a value being added, the tab has no session user and a
cached profile exists, yet the handler does not hydrate (the empty string
is falsy under the `e.newValue &&` guard). -/
theorem storage_event_empty_token_no_hydration :
    AuthAPI.getUserProfile sampleCachedStore = some sampleUser ∧
    handleStorageChange sampleCachedStore none
      (StorageEvent.mk "auth_token" (some "")) = none ∧
    (none : Option UserProfile) ≠ some sampleUser := by
  exact ⟨by decide, by decide, by decide⟩

/-- Claim C8 (amended): on a storage event for `auth_token`, removal (new
value null) clears the session user of the receiving tab; a non-empty
added value hydrates the session from the cached profile when the tab had
no user and a cached profile parses, and leaves the user absent when no
cached profile is available.  (An added empty-string value is falsy and
triggers no hydration.) -/
theorem storage_sync_clears_and_hydrates :
    (∀ (store : Store) (user : Option UserProfile),
        handleStorageChange store user
          (StorageEvent.mk "auth_token" none) = none) ∧
    (∀ (store : Store) (v : String) (u : UserProfile),
        v ≠ "" → AuthAPI.getUserProfile store = some u →
          handleStorageChange store none
            (StorageEvent.mk "auth_token" (some v)) = some u) ∧
    (∀ (store : Store) (v : String),
        v ≠ "" → AuthAPI.getUserProfile store = none →
          handleStorageChange store none
            (StorageEvent.mk "auth_token" (some v)) = none) := by
  refine ⟨fun store user => rfl, ?_, ?_⟩
  · intro store v u hv hu
    simp [handleStorageChange, hv, hu]
  · intro store v hv hu
    simp [handleStorageChange, hv, hu]

/-- Concrete instantiation of the claim C8 theorem: removing the token
clears the user in the receiving tab, and a non-empty added token restores
the cached sample profile in a tab with no user. -/
theorem storage_sync_clears_and_hydrates_check :
    handleStorageChange sampleAuthedStore (some sampleUser)
      (StorageEvent.mk "auth_token" none) = none ∧
    handleStorageChange sampleCachedStore none
      (StorageEvent.mk "auth_token" (some "tok")) = some sampleUser := by
  exact ⟨storage_sync_clears_and_hydrates.1 sampleAuthedStore (some sampleUser),
    storage_sync_clears_and_hydrates.2.1 sampleCachedStore "tok" sampleUser
      (by decide) (by decide)⟩

/-- Claim C9 counterexample: when the error body of a non-2xx response
fails to parse as JSON, `ChatAPI.handleResponse` raises "Unknown error"
(the catch substitutes a fixed detail object), not a generic message
containing the HTTP status — "500" is not a substring of the raised
message. -/
theorem chat_error_parse_failure_hides_status :
    chatErrorMessage 500 "Internal Server Error"
      (Body.notJson "<html>error page</html>") = "Unknown error" ∧
    ¬ List.IsInfix "500".data "Unknown error".data := by
  exact ⟨rfl, by decide⟩

/-- Claim C9 (amended): for every non-2xx response, the wrapper raises the
server-provided `detail` when the body parses as JSON with a non-empty
detail; when the body parses without a usable detail the message is the
generic HTTP-status fallback; when the body fails to parse,
`ChatAPI.handleResponse` and `BusinessAPI.handleResponse` raise
"Unknown error" while `DocumentAPI.getTaskStatus` falls back to the
HTTP-status message. -/
theorem wrapper_error_message_policy :
    ∀ (status : Nat) (statusText : String),
      (∀ d : String, d ≠ "" →
          chatErrorMessage status statusText (Body.jsonDetail (some d)) = d ∧
          businessErrorMessage status statusText (Body.jsonDetail (some d)) = d ∧
          documentErrorMessage status (Body.jsonDetail (some d)) = d) ∧
      (chatErrorMessage status statusText (Body.jsonDetail none) =
          httpStatusText status statusText ∧
       businessErrorMessage status statusText (Body.jsonDetail none) =
          httpStatusText status statusText ∧
       documentErrorMessage status (Body.jsonDetail none) =
          "HTTP " ++ toString status) ∧
      (∀ raw : String,
          chatErrorMessage status statusText (Body.notJson raw) =
            "Unknown error" ∧
          businessErrorMessage status statusText (Body.notJson raw) =
            "Unknown error" ∧
          documentErrorMessage status (Body.notJson raw) =
            "HTTP " ++ toString status) := by
  intro status statusText
  refine ⟨?_, ⟨rfl, rfl, rfl⟩, fun raw => ⟨rfl, rfl, rfl⟩⟩
  intro d hd
  exact ⟨by simp [chatErrorMessage, hd], by simp [businessErrorMessage, hd],
    by simp [documentErrorMessage, hd]⟩

/-- Concrete instantiation of the claim C9 theorem: a structured 404 body
is surfaced verbatim by all three wrappers. -/
theorem wrapper_error_message_policy_check :
    chatErrorMessage 404 "Not Found"
        (Body.jsonDetail (some "Business not found")) = "Business not found" ∧
    documentErrorMessage 404
        (Body.jsonDetail (some "Business not found")) = "Business not found" := by
  have h := (wrapper_error_message_policy 404 "Not Found").1
    "Business not found" (by decide)
  exact ⟨h.1, h.2.2⟩

/-- Claim C10: `BusinessAPI.hasRegisteredBusiness` always resolves to a
boolean — the value of the `has_business` flag on success and `false`
whenever its try-block rejects (non-2xx response, unparseable body or
network error) — so a failed business-status check routes the user to
onboarding instead of surfacing the error. -/
theorem hasRegisteredBusiness_false_on_error :
    (∀ resp : BizStatusResp,
        hasRegisteredBusiness resp = true ∨
        hasRegisteredBusiness resp = false) ∧
    (∀ (resp : BizStatusResp) (b : Bool),
        hasRegisteredBusinessTry resp = Except.ok b →
          hasRegisteredBusiness resp = b) ∧
    (∀ (resp : BizStatusResp) (e : String),
        hasRegisteredBusinessTry resp = Except.error e →
          hasRegisteredBusiness resp = false ∧
          checkBusinessRegistrationAndRedirect resp = Route.onboarding) := by
  refine ⟨?_, ?_, ?_⟩
  · intro resp
    cases h : hasRegisteredBusiness resp with
    | true => exact Or.inl rfl
    | false => exact Or.inr rfl
  · intro resp b h
    rw [hasRegisteredBusiness, h]
  · intro resp e h
    have hb : hasRegisteredBusiness resp = false := by
      rw [hasRegisteredBusiness, h]
    refine ⟨hb, ?_⟩
    rw [checkBusinessRegistrationAndRedirect, hb]
    rfl

/-- Concrete instantiation of the claim C10 theorem: a network error and a
non-2xx response both yield `false` and route to onboarding. -/
theorem hasRegisteredBusiness_false_on_error_check :
    hasRegisteredBusiness (BizStatusResp.netError "Failed to fetch") = false ∧
    checkBusinessRegistrationAndRedirect
      (BizStatusResp.httpError 500 "Internal Server Error"
        (Body.jsonDetail (some "boom"))) = Route.onboarding := by
  exact ⟨(hasRegisteredBusiness_false_on_error.2.2
      (BizStatusResp.netError "Failed to fetch") "Failed to fetch" rfl).1,
    (hasRegisteredBusiness_false_on_error.2.2
      (BizStatusResp.httpError 500 "Internal Server Error"
        (Body.jsonDetail (some "boom"))) "boom" rfl).2⟩

end ChatHub
